import Mathlib

/-!
Verification of the CQ-results generator (`scripts/generate_cq_results.py`).

The script is a pure batch pass over three in-memory tabular datasets
(cost rows, incident rows, objective rows).  We embed it shallowly:

* a CSV row is an association list from field names to string values, and
  `rowGet` mirrors `row.get(k, "")`;
* Python `str.strip` is `pytrim`, implemented structurally over character
  lists so that concrete instances reduce in the kernel;
* Python floats are modelled as exact rationals (`ℚ`); `float(x)` parsing is
  modelled for plain decimal numerals (optional sign, digits, optional
  fractional part), everything else coercing to the default `0` exactly as
  the `as_float` helper does for unparsable input; the fixed-precision
  output formatting (`%.2f` / `%.4f`) is out of scope (serialization), so
  numeric output fields carry the exact rational;
* `list.sort` / `sorted` with a tuple key is `List.insertionSort` over the
  lexicographic order on the key — every sort key used by the script is
  injective on the sorted rows, so any correct sort produces the same list
  the Python stable sort does;
* Python `dict` / `defaultdict` accumulators are association lists updated
  in insertion order, matching dict iteration order.
-/

/-- A CSV row: association list from field names to raw string values. -/
abbrev Row := List (String × String)

/-- First-match association-list lookup (Python dict lookup). -/
def lookupA {β : Type} : List (String × β) → String → Option β
  | [], _ => none
  | (k, v) :: rest, key => if k = key then some v else lookupA rest key

/-- Model of `row.get(key, default)`. -/
def rowGetD (row : Row) (key default : String) : String :=
  (lookupA row key).getD default

/-- Model of `row.get(key, "")` — it also covers `row.get(key)` at the script's use
sites, where a missing value (`None`) behaves exactly like `""`: it is
compared only against non-empty literals and membership in non-empty
string collections. -/
def rowGet (row : Row) (key : String) : String :=
  rowGetD row key ""

/-- Python `str.strip()` (whitespace trim), structurally over characters. -/
def pytrim (s : String) : String :=
  String.mk (((s.toList.dropWhile Char.isWhitespace).reverse.dropWhile
    Char.isWhitespace).reverse)

/-- Python `needle in haystack` substring test. -/
def strContainsSub (hay needle : String) : Bool :=
  hay.toList.tails.any (fun t => needle.toList.isPrefixOf t)

/-- Numeric value of a decimal digit character. -/
def digitVal (c : Char) : ℕ := c.toNat - 48

/-- Value of a digit string, most significant digit first. -/
def digitsToNat (cs : List Char) : ℕ :=
  cs.foldl (fun a c => 10 * a + digitVal c) 0

/-- Split a character list at the first `'.'`, if any. -/
def splitOnDot : List Char → List Char × Option (List Char)
  | [] => ([], none)
  | c :: rest =>
    if c = '.' then ([], some rest)
    else
      let p := splitOnDot rest
      (c :: p.1, p.2)

/-- Parse an unsigned decimal numeral (`"10"`, `"1.5"`, `".5"`, `"2."`). -/
def parseUnsigned? (cs : List Char) : Option ℚ :=
  match splitOnDot cs with
  | (ds, none) =>
    if !ds.isEmpty && ds.all Char.isDigit then some ((digitsToNat ds : ℚ))
    else none
  | (ds, some fs) =>
    if (!ds.isEmpty || !fs.isEmpty) && ds.all Char.isDigit && fs.all Char.isDigit then
      some ((digitsToNat ds : ℚ) + (digitsToNat fs : ℚ) / (10 : ℚ) ^ fs.length)
    else none

/-- Parse an optionally signed decimal numeral. -/
def parseSigned? : List Char → Option ℚ
  | '-' :: rest => (parseUnsigned? rest).map (fun q => -q)
  | '+' :: rest => parseUnsigned? rest
  | cs => parseUnsigned? cs

/-- Model of `as_float(x, default=0.0)`: strip, parse, coerce failures to `0`. -/
def as_float (x : String) : ℚ :=
  (parseSigned? (pytrim x).toList).getD 0

/-- Model of `nonempty(row, keys)`: every named field present and non-blank after
trimming. -/
def nonempty (row : Row) (keys : List String) : Bool :=
  keys.all (fun k => !(pytrim (rowGet row k) == ""))

/-- Model of `TRANSFER_MODES`: the transferred/externalized bearing modes. -/
def TRANSFER_MODES : List String := ["Transferred", "Externalized"]

/-- The fixed cost-type → weight-bucket lookup table. -/
def COST_TYPE_BUCKET (ct : String) : Option String :=
  if ct = "MicroarchitecturalPerformanceCost" then some "w_perf"
  else if ct = "PhysicalResourceCost" then some "w_labor"
  else if ct = "EngineeringLaborCost" then some "w_labor"
  else if ct = "VerificationValidationCost" then some "w_labor"
  else if ct = "ToolchainInfrastructureCost" then some "w_labor"
  else if ct = "LifecycleOperationsCost" then some "w_ops"
  else if ct = "ComplianceAssuranceCost" then some "w_compliance"
  else if ct = "MarketContractualCost" then some "w_compliance"
  else if ct = "LiabilityRedressCost" then some "w_compliance"
  else if ct = "ReputationTrustCost" then some "w_compliance"
  else if ct = "OpportunityCost" then some "w_opportunity"
  else none

/-- The keys of `COST_TYPE_BUCKET`, in table order. -/
def COST_TYPES : List String :=
  ["MicroarchitecturalPerformanceCost", "PhysicalResourceCost",
   "EngineeringLaborCost", "VerificationValidationCost",
   "ToolchainInfrastructureCost", "LifecycleOperationsCost",
   "ComplianceAssuranceCost", "MarketContractualCost", "LiabilityRedressCost",
   "ReputationTrustCost", "OpportunityCost"]

/-- The five weight buckets. -/
def WEIGHT_BUCKETS : List String :=
  ["w_perf", "w_labor", "w_ops", "w_compliance", "w_opportunity"]

/-- Grouped append in `defaultdict(list)` style: append `v` to the group of
`k`, creating the group at the end on first occurrence (dict insertion
order). -/
def insertGrouped {β : Type} : List (String × List β) → String → β →
    List (String × List β)
  | [], k, v => [(k, [v])]
  | (k', vs) :: rest, k, v =>
    if k' = k then (k', vs ++ [v]) :: rest
    else (k', vs) :: insertGrouped rest k v

/-! ## Microperformance aggregator (`ranking_for_microperf`) -/

/-- The perturbed magnitude of one cost row: the parsed magnitude, times
the multiplier when `evidence_grade` is exactly `"E2"` or `"E3"`
(untrimmed comparison, as in the source). -/
def perturbedMagnitude (row : Row) (multiplier : ℚ) : ℚ :=
  let value := as_float (rowGet row "magnitude")
  if rowGet row "evidence_grade" = "E2" ∨ rowGet row "evidence_grade" = "E3" then
    value * multiplier
  else value

/-- The `(family, value)` contribution of one cost row to the
microperformance grouping, or `none` when the row is filtered out:
`cost_type` not exactly `"MicroarchitecturalPerformanceCost"`, `unit` not
containing `"percent_runtime"`, or blank trimmed `mechanism_family`. -/
def microperfPair? (row : Row) (multiplier : ℚ) : Option (String × ℚ) :=
  if rowGet row "cost_type" ≠ "MicroarchitecturalPerformanceCost" then none
  else if !(strContainsSub (rowGet row "unit") "percent_runtime") then none
  else
    let family := pytrim (rowGet row "mechanism_family")
    if family = "" then none
    else some (family, perturbedMagnitude row multiplier)

/-- Sort key for `(family, mean)` pairs: `(mean, family)` ascending
(`key=lambda kv: (kv[1], kv[0])`). -/
def meanKey (p : String × ℚ) : ℚ ×ₗ String := toLex (p.2, p.1)

/-- Total preorder used to sort family/mean pairs. -/
def meanRel (a b : String × ℚ) : Prop := meanKey a ≤ meanKey b

instance : DecidableRel meanRel :=
  fun a b => inferInstanceAs (Decidable (meanKey a ≤ meanKey b))

instance : IsTotal (String × ℚ) meanRel :=
  ⟨fun a b => le_total (meanKey a) (meanKey b)⟩

instance : IsTrans (String × ℚ) meanRel :=
  ⟨fun _ _ _ hab hbc => le_trans hab hbc⟩

/-- Model of `ranking_for_microperf(cost_rows, multiplier)`: group the filtered,
perturbed microperformance magnitudes by family, take per-family means,
and rank families ascending by `(mean, family)`.  Returns
`(ranking, means)`. -/
def ranking_for_microperf (cost_rows : List Row) (multiplier : ℚ) :
    List String × List (String × ℚ) :=
  let grouped := (cost_rows.filterMap (fun row => microperfPair? row multiplier)).foldl
    (fun acc p => insertGrouped acc p.1 p.2) []
  let means := grouped.filterMap (fun g =>
    if g.2.isEmpty then none
    else some (g.1, g.2.sum / (g.2.length : ℚ)))
  ((List.insertionSort meanRel means).map Prod.fst, means)

/-! ## VOI scorer (`generate_voi_rows`) -/

/-- Per-cell accumulator: counts of E2 rows, E3 rows and
transferred/externalized rows. -/
structure CellCounts where
  e2_rows : ℕ
  e3_rows : ℕ
  transfer_rows : ℕ
deriving DecidableEq, Repr

/-- Update one cell's counters from one cost row: bump `e2_rows`/`e3_rows`
on an exact (untrimmed) `"E2"`/`"E3"` evidence grade, and `transfer_rows`
on an exact (untrimmed) transferred/externalized bearing mode. -/
def bumpCounts (c : CellCounts) (row : Row) : CellCounts :=
  let grade := rowGet row "evidence_grade"
  let c' :=
    if grade = "E2" then { c with e2_rows := c.e2_rows + 1 }
    else if grade = "E3" then { c with e3_rows := c.e3_rows + 1 }
    else c
  if TRANSFER_MODES.contains (rowGet row "bearing_mode") then
    { c' with transfer_rows := c'.transfer_rows + 1 }
  else c'

/-- Update the keyed cell map at `key` with `row`, creating the cell (at
the end, in dict insertion order) when absent. -/
def updateCell : List ((String × String) × CellCounts) → (String × String) →
    Row → List ((String × String) × CellCounts)
  | [], key, row => [(key, bumpCounts ⟨0, 0, 0⟩ row)]
  | (k, c) :: rest, key, row =>
    if k = key then (k, bumpCounts c row) :: rest
    else (k, c) :: updateCell rest key row

/-- The `by_cell` map: one entry per distinct (trimmed, non-blank)
`(mechanism_family, cost_type)` pair, in first-occurrence order. -/
def voiCells (cost_rows : List Row) : List ((String × String) × CellCounts) :=
  cost_rows.foldl (fun acc row =>
    let key := (pytrim (rowGet row "mechanism_family"),
                pytrim (rowGet row "cost_type"))
    if key.1 = "" ∨ key.2 = "" then acc else updateCell acc key row) []

/-- Counter increment in `defaultdict(int)` style: bump the counter of `f`, creating it (at
the end, in dict insertion order) when absent. -/
def bumpFam : List (String × ℕ) → String → List (String × ℕ)
  | [], f => [(f, 1)]
  | (g, n) :: rest, f =>
    if g = f then (g, n + 1) :: rest else (g, n) :: bumpFam rest f

/-- The `incident_count_by_family` map: per trimmed non-blank
`linked_family`, the number of incident rows carrying it. -/
def incident_count_map (incident_rows : List Row) : List (String × ℕ) :=
  incident_rows.foldl (fun acc row =>
    let family := pytrim (rowGet row "linked_family")
    if family = "" then acc else bumpFam acc family) []

/-- One VOI output row. -/
structure VoiRow where
  mechanism_family : String
  cost_type : String
  e2_rows : ℕ
  e3_rows : ℕ
  transfer_externalized_rows : ℕ
  incident_link_rows : ℕ
  voi_score : ℚ
  priority_rank : ℕ
deriving DecidableEq, Repr

/-- Unranked scored rows, one per `by_cell` entry, in cell order:
`score = 1.0·e2 + 2.0·e3 + 1.2·transfer + 0.8·incidents` with the
family-granular incident count. -/
def scoredRows (cost_rows incident_rows : List Row) : List VoiRow :=
  (voiCells cost_rows).map (fun cell =>
    let incidents := (lookupA (incident_count_map incident_rows) cell.1.1).getD 0
    { mechanism_family := cell.1.1
      cost_type := cell.1.2
      e2_rows := cell.2.e2_rows
      e3_rows := cell.2.e3_rows
      transfer_externalized_rows := cell.2.transfer_rows
      incident_link_rows := incidents
      voi_score := 1 * (cell.2.e2_rows : ℚ) + 2 * (cell.2.e3_rows : ℚ)
        + 6 / 5 * (cell.2.transfer_rows : ℚ) + 4 / 5 * (incidents : ℚ)
      priority_rank := 0 })

/-- Sort key of a VOI row: `(-score, family, cost_type)` ascending, i.e.
score descending with ties broken ascending by family then cost type. -/
def voiKey (r : VoiRow) : ℚ ×ₗ String ×ₗ String :=
  toLex (-r.voi_score, toLex (r.mechanism_family, r.cost_type))

/-- Total preorder used to sort VOI rows. -/
def voiRel (a b : VoiRow) : Prop := voiKey a ≤ voiKey b

instance : DecidableRel voiRel :=
  fun a b => inferInstanceAs (Decidable (voiKey a ≤ voiKey b))

instance : IsTotal VoiRow voiRel :=
  ⟨fun a b => le_total (voiKey a) (voiKey b)⟩

instance : IsTrans VoiRow voiRel :=
  ⟨fun _ _ _ hab hbc => le_trans hab hbc⟩

/-- Model of `generate_voi_rows(cost_rows, incident_rows)`: score every cell, sort
by `(-score, family, cost_type)`, and assign 1-based `priority_rank` in
that order. -/
def generate_voi_rows (cost_rows incident_rows : List Row) : List VoiRow :=
  let sortedRows := List.insertionSort voiRel (scoredRows cost_rows incident_rows)
  (List.enumFrom 1 sortedRows).map (fun p => { p.2 with priority_rank := p.1 })

/-! ## Objective ranker (`generate_objective_comparisons`) -/

/-- Max update in `defaultdict(float)` style: lift the entry of `ct` to at
least `v`, starting from the default `0.0` on first occurrence. -/
def setMax : List (String × ℚ) → String → ℚ → List (String × ℚ)
  | [], ct, v => [(ct, max 0 v)]
  | (k, m) :: rest, ct, v =>
    if k = ct then (k, max m v) :: rest else (k, m) :: setMax rest ct v

/-- Model of `max_abs_by_cost_type(cost_rows)`: per trimmed non-blank `cost_type`,
the maximum absolute parsed magnitude, floored to `1.0` when `≤ 0`. -/
def max_abs_by_cost_type (cost_rows : List Row) : List (String × ℚ) :=
  let by_type := cost_rows.foldl (fun acc row =>
    let cost_type := pytrim (rowGet row "cost_type")
    if cost_type = "" then acc
    else setMax acc cost_type |as_float (rowGet row "magnitude")|) []
  by_type.map (fun p => (p.1, if p.2 ≤ 0 then 1 else p.2))

/-- Model of `normalized_incident_loss_by_family(incident_rows)`: per trimmed
non-blank `linked_family`, the mean absolute loss divided by the global
maximum loss (floored to `1.0` when `≤ 0`). -/
def normalized_incident_loss_by_family (incident_rows : List Row) :
    List (String × ℚ) :=
  let acc := incident_rows.foldl (fun (acc : List (String × List ℚ) × ℚ) row =>
    let family := pytrim (rowGet row "linked_family")
    if family = "" then acc
    else
      let value := |as_float (rowGet row "loss_magnitude")|
      (insertGrouped acc.1 family value, max acc.2 value)) ([], 0)
  let max_loss := if acc.2 ≤ 0 then 1 else acc.2
  acc.1.filterMap (fun g =>
    if g.2.isEmpty then none
    else some (g.1, (g.2.sum / (g.2.length : ℚ)) / max_loss))

/-- Model of `objective_row_term(row, objective, max_by_type)`: one cost row's
contribution to a family's cost component under an objective. -/
def objective_row_term (row objective : Row) (max_by_type : List (String × ℚ)) :
    ℚ :=
  let cost_type := pytrim (rowGet row "cost_type")
  let magnitude := |as_float (rowGet row "magnitude")|
  let denom := (lookupA max_by_type cost_type).getD 1
  let normalized := if 0 < denom then magnitude / denom else 0
  let base_weight :=
    match COST_TYPE_BUCKET cost_type with
    | some bucket => as_float (rowGetD objective bucket "0")
    | none => 0
  let transfer_weight := as_float (rowGetD objective "w_transfer_externalized" "0")
  let mode := pytrim (rowGet row "bearing_mode")
  let extra_weight := if TRANSFER_MODES.contains mode then transfer_weight else 0
  (base_weight + extra_weight) * normalized

/-- Cost rows grouped by trimmed non-blank `mechanism_family`, in
first-occurrence order. -/
def group_by_family (cost_rows : List Row) : List (String × List Row) :=
  cost_rows.foldl (fun acc row =>
    let family := pytrim (rowGet row "mechanism_family")
    if family = "" then acc else insertGrouped acc family row) []

/-- The seven weight fields every usable objective must carry non-blank. -/
def required_weight_fields : List String :=
  ["w_perf", "w_labor", "w_ops", "w_compliance", "w_opportunity",
   "w_transfer_externalized", "w_incident_loss"]

/-- The `family_scores` map computed for one objective: per family, the
mean row term plus the weighted normalized incident loss. -/
def objectiveFamilyScores (grouped : List (String × List Row)) (objective : Row)
    (max_by_type normalized_incident : List (String × ℚ)) : List (String × ℚ) :=
  grouped.filterMap (fun g =>
    if g.2.isEmpty then none
    else
      let cost_component :=
        (g.2.map (fun row => objective_row_term row objective max_by_type)).sum
          / (g.2.length : ℚ)
      let incident_component := as_float (rowGetD objective "w_incident_loss" "0")
        * (lookupA normalized_incident g.1).getD 0
      some (g.1, cost_component + incident_component))

/-- One objective-comparison output row. -/
structure ObjComparison where
  objective_id : String
  objective_label : String
  baseline_family : String
  mechanism_family : String
  objective_score : ℚ
  delta_vs_baseline : ℚ
  rank : ℕ
deriving DecidableEq, Repr

/-- Process one objective row: `none` when it is skipped (blank id, label
or baseline; a blank weight field; baseline not among the scored families;
fewer than two scored families), otherwise the data its output rows are
built from. -/
def processObjective (grouped : List (String × List Row))
    (max_by_type normalized_incident : List (String × ℚ)) (objective : Row) :
    Option (String × String × String × List (String × ℚ)) :=
  let objective_id := pytrim (rowGet objective "objective_id")
  let objective_label := pytrim (rowGet objective "objective_label")
  let baseline_family := pytrim (rowGet objective "baseline_family")
  if objective_id = "" ∨ objective_label = "" ∨ baseline_family = "" then none
  else if !(nonempty objective required_weight_fields) then none
  else
    let family_scores :=
      objectiveFamilyScores grouped objective max_by_type normalized_incident
    if lookupA family_scores baseline_family = none ∨ family_scores.length < 2 then
      none
    else some (objective_id, objective_label, baseline_family, family_scores)

/-- The output rows of one valid objective: families ranked ascending by
`(score, family)`, with deltas against the baseline family's score. -/
def objectiveOutputRows (objective_id objective_label baseline_family : String)
    (family_scores : List (String × ℚ)) : List ObjComparison :=
  let baseline_score := (lookupA family_scores baseline_family).getD 0
  let ordered := List.insertionSort meanRel family_scores
  (List.enumFrom 1 ordered).map (fun p =>
    { objective_id := objective_id
      objective_label := objective_label
      baseline_family := baseline_family
      mechanism_family := p.2.1
      objective_score := p.2.2
      delta_vs_baseline := p.2.2 - baseline_score
      rank := p.1 })

/-- Model of `generate_objective_comparisons(cost_rows, incident_rows,
objective_rows)`: returns `(comparison rows, valid count, total count)`. -/
def generate_objective_comparisons (cost_rows incident_rows objective_rows :
    List Row) : List ObjComparison × ℕ × ℕ :=
  let grouped := group_by_family cost_rows
  let max_by_type := max_abs_by_cost_type cost_rows
  let normalized_incident := normalized_incident_loss_by_family incident_rows
  let acc := objective_rows.foldl (fun (acc : List ObjComparison × ℕ) objective =>
    match processObjective grouped max_by_type normalized_incident objective with
    | none => acc
    | some (oid, olabel, baseline, scores) =>
      (acc.1 ++ objectiveOutputRows oid olabel baseline scores, acc.2 + 1)) ([], 0)
  (acc.1, acc.2, objective_rows.length)

/-! ## Consistency checker (`generate_shacl_equivalent_results`) -/

/-- One consistency-report output row. -/
structure ShaclRow where
  rule_id : String
  description : String
  violations : ℕ
  checked_rows : ℕ
  status : String
  validator : String
deriving DecidableEq, Repr

/-- The fold state of the consistency checker: R1 violations, R2
violations, and the distinct `(mechanism_instance, stakeholder)` pairs
seen so far (a set, kept as a duplicate-free list). -/
def shaclStep (acc : ℕ × ℕ × List (String × String)) (row : Row) :
    ℕ × ℕ × List (String × String) :=
  let mechanism := pytrim (rowGet row "mechanism_instance")
  let bearer := pytrim (rowGet row "stakeholder")
  let pairs :=
    if mechanism ≠ "" ∧ bearer ≠ "" ∧ (mechanism, bearer) ∉ acc.2.2 then
      acc.2.2 ++ [(mechanism, bearer)]
    else acc.2.2
  let mode := pytrim (rowGet row "bearing_mode")
  let decision_maker := pytrim (rowGet row "decision_maker")
  let transfer_target := pytrim (rowGet row "transfer_target")
  let iv :=
    if mode = "Internalized" ∧ decision_maker ≠ "" ∧ bearer ≠ "" ∧
        decision_maker ≠ bearer then
      acc.1 + 1
    else acc.1
  let tv :=
    if TRANSFER_MODES.contains mode ∧
        (transfer_target = "" ∨ transfer_target = decision_maker) then
      acc.2.1 + 1
    else acc.2.1
  (iv, tv, pairs)

/-- Model of `generate_shacl_equivalent_results(cost_rows)`: returns the two report
rows plus `(internalized violations, transfer violations, distinct
inferred pair count)`. -/
def generate_shacl_equivalent_results (cost_rows : List Row) :
    List ShaclRow × ℕ × ℕ × ℕ :=
  let acc := cost_rows.foldl shaclStep (0, 0, [])
  ([{ rule_id := "CQ7-R1"
      description := "Internalized costs require decision-maker == bearer."
      violations := acc.1
      checked_rows := cost_rows.length
      status := if acc.1 = 0 then "pass" else "fail"
      validator := "shacl-equivalent" },
    { rule_id := "CQ7-R2"
      description := "Transferred/externalized costs require non-empty transfer target distinct from decision-maker."
      violations := acc.2.1
      checked_rows := cost_rows.length
      status := if acc.2.1 = 0 then "pass" else "fail"
      validator := "shacl-equivalent" }],
   acc.1, acc.2.1, acc.2.2.length)

/-! ## Report assembler (`main`, minus file I/O and CLI) -/

/-- One CQ-report output row. -/
structure CqRow where
  cq_id : String
  status : String
  coverage_metric : String
  notes : String
deriving DecidableEq, Repr

/-- One sensitivity-table output row. -/
structure SensitivityRow where
  scenario : String
  rank : ℕ
  mechanism_family : String
  mean_microperf_percent_runtime : ℚ
deriving DecidableEq, Repr

/-- The required cost-record fields checked for CQ1. -/
def required_cost_fields : List String :=
  ["stakeholder", "time_horizon", "magnitude", "unit", "evidence_grade",
   "data_origin", "source_key", "source_locator"]

/-- The required incident-record fields checked for CQ4. -/
def required_incident_fields : List String :=
  ["incident_label", "linked_family", "residual_risk_bearer", "loss_magnitude",
   "loss_unit", "attribution_confidence", "evidence_grade", "data_origin",
   "source_key", "source_locator", "attribution_evidence_type",
   "linkage_mechanism", "counterfactual_effect"]

/-- The OpportunityCost-only fields checked for CQ8. -/
def cq8_required : List String :=
  ["foregone_alternative", "foregone_resource", "foregone_benefit",
   "design_constraint"]

/-- The CQ5 gate as computed by `main`: a non-empty baseline ranking that
coincides with the rankings at multipliers `0.8` and `1.2`. -/
def cq5_pass (cost_rows : List Row) : Bool :=
  let baseline_rank := (ranking_for_microperf cost_rows 1).1
  let minus_rank := (ranking_for_microperf cost_rows (4 / 5)).1
  let plus_rank := (ranking_for_microperf cost_rows (6 / 5)).1
  !baseline_rank.isEmpty && baseline_rank == minus_rank && minus_rank == plus_rank

/-- The CQ5 status written to the report. -/
def cq5_status (cost_rows : List Row) : String :=
  if cq5_pass cost_rows then "pass" else "partial"

/-- The CQ7 gate as computed by `main`: both rule violation counts zero
and a positive inferred-pair count. -/
def cq7_pass (cost_rows : List Row) : Bool :=
  let r := generate_shacl_equivalent_results cost_rows
  r.2.1 == 0 && r.2.2.1 == 0 && decide (0 < r.2.2.2)

/-- The CQ7 status written to the report. -/
def cq7_status (cost_rows : List Row) : String :=
  if cq7_pass cost_rows then "pass" else "partial"

/-- The sensitivity table: for each scenario, families ranked ascending by
`(mean, family)` with their means. -/
def sensitivityRows (cost_rows : List Row) : List SensitivityRow :=
  [("baseline", (ranking_for_microperf cost_rows 1).2),
   ("minus20_e2e3", (ranking_for_microperf cost_rows (4 / 5)).2),
   ("plus20_e2e3", (ranking_for_microperf cost_rows (6 / 5)).2)].flatMap
    (fun scenario =>
      (List.enumFrom 1 (List.insertionSort meanRel scenario.2)).map (fun p =>
        { scenario := scenario.1
          rank := p.1
          mechanism_family := p.2.1
          mean_microperf_percent_runtime := p.2.2 }))

/-- All five output artifacts of one run. -/
structure PipelineOutput where
  cq_report : List CqRow
  voi : List VoiRow
  sensitivity : List SensitivityRow
  objective_comparison : List ObjComparison
  consistency : List ShaclRow
deriving DecidableEq, Repr

/-- The full `main` computation (file reading/writing and CLI handling
stripped): from the three in-memory datasets to the five artifacts. -/
def runPipeline (cost_rows incident_rows objective_rows : List Row) :
    PipelineOutput :=
  let cq1_ok := (cost_rows.filter (fun row => nonempty row required_cost_fields)).length
  let cq1_total := cost_rows.length
  let cq1_pass := cq1_ok == cq1_total && decide (0 < cq1_total)
  let cq2_modes_ok := (cost_rows.filter
    (fun row => !(pytrim (rowGet row "bearing_mode") == ""))).length
  let transfer_rows := cost_rows.filter
    (fun row => TRANSFER_MODES.contains (pytrim (rowGet row "bearing_mode")))
  let cq2_target_ok := (transfer_rows.filter
    (fun row => !(pytrim (rowGet row "transfer_target") == ""))).length
  let externalized := (cost_rows.filter
    (fun row => pytrim (rowGet row "bearing_mode") == "Externalized")).length
  let cq2_pass := cq2_modes_ok == cost_rows.length &&
    cq2_target_ok == transfer_rows.length && decide (0 < cost_rows.length)
  let obj := generate_objective_comparisons cost_rows incident_rows objective_rows
  let cq3_valid := obj.2.1
  let cq3_total := obj.2.2
  let cq3_pass := decide (0 < cq3_total) && cq3_valid == cq3_total
  let cq4_ok := (incident_rows.filter
    (fun row => nonempty row required_incident_fields)).length
  let cq4_total := incident_rows.length
  let cq4_pass := decide (0 < cq4_total) && cq4_ok == cq4_total
  let voi_rows := generate_voi_rows cost_rows incident_rows
  let cq6_pass := decide (0 < voi_rows.length)
  let shacl := generate_shacl_equivalent_results cost_rows
  let opportunity_rows := cost_rows.filter
    (fun row => pytrim (rowGet row "cost_type") == "OpportunityCost")
  let cq8_ok := (opportunity_rows.filter (fun row => nonempty row cq8_required)).length
  let cq8_total := opportunity_rows.length
  let cq8_pass := decide (0 < cq8_total) && cq8_ok == cq8_total
  { cq_report :=
      [{ cq_id := "CQ1"
         status := if cq1_pass then "pass" else "partial"
         coverage_metric := toString cq1_ok ++ "/" ++ toString cq1_total ++
           " tuples include stakeholder + time + magnitude + unit + evidence + data_origin + source_key + source_locator"
         notes := "Cost visibility by bearer, horizon, and row-level provenance is executable" },
       { cq_id := "CQ2"
         status := if cq2_pass then "pass" else "partial"
         coverage_metric := toString cq2_modes_ok ++ "/" ++
           toString cost_rows.length ++ " tuples include bearing mode; transfer-target coverage " ++
           toString cq2_target_ok ++ "/" ++ toString transfer_rows.length ++
           "; Externalized=" ++ toString externalized
         notes := "Internalized/transferred/externalized burden transfer is executable with explicit transfer targets" },
       { cq_id := "CQ3"
         status := if cq3_pass then "pass" else "partial"
         coverage_metric := toString cq3_valid ++ "/" ++ toString cq3_total ++
           " objectives include explicit weights + baseline and yield ranked deltas"
         notes := "Comparative choice is anchored to objective-function weighting and baseline counterfactual" },
       { cq_id := "CQ4"
         status := if cq4_pass then "pass" else "partial"
         coverage_metric := toString cq4_ok ++ "/" ++ toString cq4_total ++
           " incident tuples include loss + confidence + provenance + attribution evidence + linkage mechanism + counterfactual effect + residual-risk bearer"
         notes := "Incident linkage distinguishes attribution evidence, linkage pathway, and counterfactual claim" },
       { cq_id := "CQ5"
         status := cq5_status cost_rows
         coverage_metric :=
           if cq5_pass cost_rows then
             "Family ranking stable in both +/-20% E2/E3 perturbation directions"
           else "Family ranking changes under +/-20% E2/E3 perturbation"
         notes := "Sensitivity test is computed from seeded microperformance tuples" },
       { cq_id := "CQ6"
         status := if cq6_pass then "pass" else "partial"
         coverage_metric := "VOI ranking computed for " ++
           toString voi_rows.length ++ " family/cost cells"
         notes := "Information-gap prioritization is executable via uncertainty/transfer/incident scoring" },
       { cq_id := "CQ7"
         status := cq7_status cost_rows
         coverage_metric := "Internalized contradictions=" ++ toString shacl.2.1 ++
           "; transfer-target contradictions=" ++ toString shacl.2.2.1 ++
           "; inferred mechanism-bearer pairs=" ++ toString shacl.2.2.2
         notes := "SHACL-equivalent consistency checks validate burden semantics beyond field presence" },
       { cq_id := "CQ8"
         status := if cq8_pass then "pass" else "partial"
         coverage_metric := toString cq8_ok ++ "/" ++ toString cq8_total ++
           " OpportunityCost tuples include explicit alternative-use + foregone resource + benefit + design constraint"
         notes := "Opportunity cost is represented as explicit AlternativeUse nodes under design constraints" }]
    voi := voi_rows
    sensitivity := sensitivityRows cost_rows
    objective_comparison := obj.1
    consistency := shacl.1 }

/-! ## Predicates and concrete inputs used by the claim statements -/

/-- A cost row whose `mechanism_family` and `cost_type` are both non-blank
after trimming — the categorical validity the spec's exclusion invariant is
about. -/
def validCat (row : Row) : Bool :=
  !(pytrim (rowGet row "mechanism_family") == "") &&
  !(pytrim (rowGet row "cost_type") == "")

/-- The exact conditions under which `generate_objective_comparisons`
counts an objective as valid: non-blank trimmed id, label and baseline;
all seven weight fields non-blank; baseline among the scored families
(which are exactly the grouped families); at least two scored families. -/
def validObjective (cost_rows : List Row) (objective : Row) : Bool :=
  !(pytrim (rowGet objective "objective_id") == "") &&
  !(pytrim (rowGet objective "objective_label") == "") &&
  !(pytrim (rowGet objective "baseline_family") == "") &&
  nonempty objective required_weight_fields &&
  (lookupA (group_by_family cost_rows)
    (pytrim (rowGet objective "baseline_family"))).isSome &&
  decide (2 ≤ (group_by_family cost_rows).length)

/-- The `family_scores` map `generate_objective_comparisons` computes for
one objective over the given datasets. -/
def familyScoresFor (cost_rows incident_rows : List Row) (objective : Row) :
    List (String × ℚ) :=
  objectiveFamilyScores (group_by_family cost_rows) objective
    (max_abs_by_cost_type cost_rows)
    (normalized_incident_loss_by_family incident_rows)

/-- The spec's end-to-end VOI cost row:
`family=F1, cost_type=MicroarchitecturalPerformanceCost,
unit=percent_runtime, magnitude=10, evidence_grade=E1`. -/
def voiCostRow : Row :=
  [("mechanism_family", "F1"),
   ("cost_type", "MicroarchitecturalPerformanceCost"),
   ("unit", "percent_runtime"), ("magnitude", "10"), ("evidence_grade", "E1")]

/-- The spec's end-to-end VOI incident row:
`linked_family=F1, loss_magnitude=5`. -/
def voiIncidentRow : Row :=
  [("linked_family", "F1"), ("loss_magnitude", "5")]

/-- A categorically valid cost row (family `F2`, `OpportunityCost`). -/
def c2ValidRow : Row :=
  [("mechanism_family", "F2"), ("cost_type", "OpportunityCost"),
   ("magnitude", "10")]

/-- A cost row with a blank `cost_type` but a non-blank family and a
transferred bearing mode. -/
def c2InvalidRow : Row :=
  [("mechanism_family", "F1"), ("cost_type", ""), ("magnitude", "30"),
   ("bearing_mode", "Transferred")]

/-- An all-ones objective weighting profile with baseline `F1` but a blank
`objective_label`. -/
def c4Objective : Row :=
  [("objective_id", "O1"), ("objective_label", ""), ("baseline_family", "F1"),
   ("w_perf", "1"), ("w_labor", "1"), ("w_ops", "1"), ("w_compliance", "1"),
   ("w_opportunity", "1"), ("w_transfer_externalized", "1"),
   ("w_incident_loss", "1")]

/-- Two cost rows covering families `F1` and `F2`. -/
def c4CostRows : List Row :=
  [[("mechanism_family", "F1"), ("cost_type", "OpportunityCost"),
    ("magnitude", "10")],
   [("mechanism_family", "F2"), ("cost_type", "OpportunityCost"),
    ("magnitude", "10")]]

/-- A cost row whose `evidence_grade` is `" E2"` — `E2` with leading
whitespace. -/
def wsGradeRow : Row := [("evidence_grade", " E2")]

/-! ## Claim C8: the cost-type → weight-bucket table -/

/-- Claim C8 is false as stated: the `w_ops` bucket has exactly one cost
type (`LifecycleOperationsCost`) mapping to it, not at least two. -/
theorem C8_counterexample :
    COST_TYPES.countP (fun ct => COST_TYPE_BUCKET ct == some "w_ops") = 1 ∧
    ¬ 2 ≤ COST_TYPES.countP (fun ct => COST_TYPE_BUCKET ct == some "w_ops") := by
  decide

/-- Claim C8 (amended): the lookup table maps each of the eleven distinct
cost types to exactly one of the five buckets, `OpportunityCost` maps to
`w_opportunity`, and the labor and compliance buckets each have at least
two cost types while the ops bucket has exactly one. -/
theorem C8_bucket_table :
    COST_TYPES.length = 11 ∧ COST_TYPES.Nodup ∧
    COST_TYPES.all (fun ct =>
      ((COST_TYPE_BUCKET ct).map (fun b => WEIGHT_BUCKETS.contains b)).getD
        false) = true ∧
    COST_TYPE_BUCKET "OpportunityCost" = some "w_opportunity" ∧
    2 ≤ COST_TYPES.countP (fun ct => COST_TYPE_BUCKET ct == some "w_labor") ∧
    COST_TYPES.countP (fun ct => COST_TYPE_BUCKET ct == some "w_ops") = 1 ∧
    2 ≤ COST_TYPES.countP (fun ct => COST_TYPE_BUCKET ct == some "w_compliance") := by
  decide

/-! ## Claim C1: the CQ5 (sensitivity) gate -/

/-- Claim C1 is false as stated: on an empty cost dataset the three family
orderings are identical (all empty), yet CQ5 is reported `partial`, not
`pass` — the gate additionally requires a non-empty baseline ranking. -/
theorem C1_counterexample :
    (ranking_for_microperf [] (4 / 5)).1 = (ranking_for_microperf [] 1).1 ∧
    (ranking_for_microperf [] (6 / 5)).1 = (ranking_for_microperf [] 1).1 ∧
    cq5_status [] ≠ "pass" ∧ cq5_status [] = "partial" := by
  decide

/-- Claim C1 (amended): CQ5 is reported `pass` iff the baseline family
ordering is non-empty and the orderings at multipliers 0.8, 1.0 and 1.2
coincide; otherwise it is reported `partial`, never an error status. -/
theorem C1_cq5_gate (cost_rows : List Row) :
    (cq5_status cost_rows = "pass" ↔
      ((ranking_for_microperf cost_rows 1).1 ≠ [] ∧
       (ranking_for_microperf cost_rows (4 / 5)).1 =
         (ranking_for_microperf cost_rows 1).1 ∧
       (ranking_for_microperf cost_rows (6 / 5)).1 =
         (ranking_for_microperf cost_rows 1).1)) ∧
    (cq5_status cost_rows = "pass" ∨ cq5_status cost_rows = "partial") := by
  by_cases hc : cq5_pass cost_rows
  · rw [cq5_status, if_pos hc]
    rw [cq5_pass, Bool.and_eq_true, Bool.and_eq_true] at hc
    obtain ⟨⟨h1, h2⟩, h3⟩ := hc
    rw [Bool.not_eq_true', List.isEmpty_eq_false] at h1
    rw [beq_iff_eq] at h2 h3
    exact ⟨⟨fun _ => ⟨h1, h2.symm, (h2.trans h3).symm⟩, fun _ => rfl⟩, Or.inl rfl⟩
  · rw [cq5_status, if_neg hc]
    refine ⟨⟨fun h => absurd h (by decide), fun ⟨h1, h2, h3⟩ => absurd ?_ hc⟩,
      Or.inr rfl⟩
    rw [cq5_pass, Bool.and_eq_true, Bool.and_eq_true, Bool.not_eq_true',
      List.isEmpty_eq_false, beq_iff_eq, beq_iff_eq]
    exact ⟨⟨h1, h2.symm⟩, h2.symm.symm.trans h3.symm⟩

/-! ## Claim C3: the CQ7 (consistency) gate -/

/-- Claim C3 is false as stated: on a dataset whose single row yields zero
violations for both rules but no inferred `(mechanism_instance,
stakeholder)` pair, CQ7 is reported `partial` — the pair count gates the
status. -/
theorem C3_counterexample :
    (generate_shacl_equivalent_results [[("mechanism_instance", "M1")]]).2.1 = 0 ∧
    (generate_shacl_equivalent_results [[("mechanism_instance", "M1")]]).2.2.1 = 0 ∧
    cq7_status [[("mechanism_instance", "M1")]] ≠ "pass" ∧
    cq7_status [[("mechanism_instance", "M1")]] = "partial" := by
  decide

/-- Claim C3 (amended): CQ7 is reported `pass` iff both rules have zero
violations and the inferred-pair count is positive; otherwise `partial`. -/
theorem C3_cq7_gate (cost_rows : List Row) :
    (cq7_status cost_rows = "pass" ↔
      ((generate_shacl_equivalent_results cost_rows).2.1 = 0 ∧
       (generate_shacl_equivalent_results cost_rows).2.2.1 = 0 ∧
       0 < (generate_shacl_equivalent_results cost_rows).2.2.2)) ∧
    (cq7_status cost_rows = "pass" ∨ cq7_status cost_rows = "partial") := by
  by_cases hc : cq7_pass cost_rows
  · rw [cq7_status, if_pos hc]
    rw [cq7_pass, Bool.and_eq_true, Bool.and_eq_true] at hc
    obtain ⟨⟨h1, h2⟩, h3⟩ := hc
    rw [beq_iff_eq] at h1 h2
    rw [decide_eq_true_eq] at h3
    exact ⟨⟨fun _ => ⟨h1, h2, h3⟩, fun _ => rfl⟩, Or.inl rfl⟩
  · rw [cq7_status, if_neg hc]
    refine ⟨⟨fun h => absurd h (by decide), fun ⟨h1, h2, h3⟩ => absurd ?_ hc⟩,
      Or.inr rfl⟩
    rw [cq7_pass, Bool.and_eq_true, Bool.and_eq_true, beq_iff_eq, beq_iff_eq,
      decide_eq_true_eq]
    exact ⟨⟨h1, h2⟩, h3⟩

/-! ## Claim C2: exclusion of rows with blank categorical fields -/

/-- Claim C2 is false as stated: a cost row with a blank `cost_type` (but
non-blank family) is not excluded from objective scoring — here it alone
creates family `F1`'s objective score, which disappears when the row is
removed. -/
theorem C2_counterexample :
    [c2ValidRow, c2InvalidRow].filter validCat = [c2ValidRow] ∧
    (lookupA (familyScoresFor [c2ValidRow, c2InvalidRow] [] c4Objective)
      "F1").isSome = true ∧
    lookupA (familyScoresFor [c2ValidRow] [] c4Objective) "F1" = none := by
  refine ⟨by decide, by decide, by decide⟩

/-! ## Claim C6: determinism of the full pipeline -/

/-- Claim C6: the run is a deterministic pure function of the three input
record sets — two runs on equal inputs produce equal contents for all five
output artifacts.  (In this embedding the pipeline is a total function and
the fixed multipliers and weights are baked in, so determinism is
definitional; file I/O, which the spec scopes out, is not modelled.) -/
theorem C6_deterministic (c1 c2 i1 i2 o1 o2 : List Row) (hc : c1 = c2)
    (hi : i1 = i2) (ho : o1 = o2) :
    runPipeline c1 i1 o1 = runPipeline c2 i2 o2 := by
  subst hc; subst hi; subst ho; rfl

/-- Witness for C6 at a concrete input. -/
theorem C6_deterministic_witness :
    runPipeline [voiCostRow] [voiIncidentRow] [c4Objective] =
      runPipeline [voiCostRow] [voiIncidentRow] [c4Objective] :=
  C6_deterministic [voiCostRow] [voiCostRow] [voiIncidentRow] [voiIncidentRow]
    [c4Objective] [c4Objective] rfl rfl rfl

/-! ## Claim C10: untrimmed evidence-grade comparison -/

/-- Claim C10: a cost row whose `evidence_grade` carries surrounding
whitespace around `E2`/`E3` is counted as present by the (trimming)
field-presence validator, yet is never perturbed by the aggregator and
bumps neither `e2_rows` nor `e3_rows` in the VOI cell accumulator — both
compare the grade untrimmed. -/
theorem C10_untrimmed_grade (row : Row) (multiplier : ℚ) (c : CellCounts)
    (htrim : pytrim (rowGet row "evidence_grade") = "E2" ∨
      pytrim (rowGet row "evidence_grade") = "E3")
    (h2 : rowGet row "evidence_grade" ≠ "E2")
    (h3 : rowGet row "evidence_grade" ≠ "E3") :
    nonempty row ["evidence_grade"] = true ∧
    perturbedMagnitude row multiplier = as_float (rowGet row "magnitude") ∧
    (bumpCounts c row).e2_rows = c.e2_rows ∧
    (bumpCounts c row).e3_rows = c.e3_rows := by
  refine ⟨?_, ?_, ?_, ?_⟩
  · rw [nonempty, List.all_cons, List.all_nil, Bool.and_true, Bool.not_eq_true',
      beq_eq_false_iff_ne]
    rcases htrim with h | h <;> rw [h] <;> decide
  · rw [perturbedMagnitude]
    rw [if_neg (by rintro (h | h) <;> [exact h2 h; exact h3 h])]
  · rw [bumpCounts]
    simp only [if_neg h2, if_neg h3]
    split <;> rfl
  · rw [bumpCounts]
    simp only [if_neg h2, if_neg h3]
    split <;> rfl

/-- Witness for C10 at the concrete row with `evidence_grade = " E2"`. -/
theorem C10_untrimmed_grade_witness :
    (pytrim (rowGet wsGradeRow "evidence_grade") = "E2" ∨
      pytrim (rowGet wsGradeRow "evidence_grade") = "E3") ∧
    (nonempty wsGradeRow ["evidence_grade"] = true ∧
     perturbedMagnitude wsGradeRow 2 = as_float (rowGet wsGradeRow "magnitude") ∧
     (bumpCounts ⟨0, 0, 0⟩ wsGradeRow).e2_rows = (0 : ℕ) ∧
     (bumpCounts ⟨0, 0, 0⟩ wsGradeRow).e3_rows = (0 : ℕ)) :=
  ⟨Or.inl (by decide),
   C10_untrimmed_grade wsGradeRow 2 ⟨0, 0, 0⟩ (Or.inl (by decide)) (by decide)
     (by decide)⟩

/-! ## Claim C9: multiplier invariance under all-E1 evidence -/

/-- Claim C9: when every row whose `cost_type` is
`MicroarchitecturalPerformanceCost` carries evidence grade `E1`, the
aggregator's per-family means and family ordering are identical at every
perturbation multiplier (in particular at 0.8, 1.0 and 1.2). -/
theorem C9_e1_multiplier_invariant (cost_rows : List Row) (m m' : ℚ)
    (h : cost_rows.all (fun row =>
      !(rowGet row "cost_type" == "MicroarchitecturalPerformanceCost") ||
      (rowGet row "evidence_grade" == "E1")) = true) :
    ranking_for_microperf cost_rows m = ranking_for_microperf cost_rows m' := by
  rw [List.all_eq_true] at h
  rw [ranking_for_microperf, ranking_for_microperf]
  have hpair : cost_rows.filterMap (fun row => microperfPair? row m) =
      cost_rows.filterMap (fun row => microperfPair? row m') := by
    refine List.filterMap_congr (fun row hrow => ?_)
    have hr := h row hrow
    rw [Bool.or_eq_true, Bool.not_eq_true', beq_eq_false_iff_ne, beq_iff_eq] at hr
    rw [microperfPair?, microperfPair?]
    rcases hr with hct | he1
    · rw [if_pos hct, if_pos hct]
    · have hval : perturbedMagnitude row m = perturbedMagnitude row m' := by
        have hcond : ¬(("E1" : String) = "E2" ∨ ("E1" : String) = "E3") := by
          decide
        rw [perturbedMagnitude, perturbedMagnitude, he1, if_neg hcond,
          if_neg hcond]
      simp only [microperfPair?, hval]
  rw [hpair]

/-- Witness for C9: one all-E1 microperformance row, multipliers 0.8 and
1.2. -/
theorem C9_e1_multiplier_invariant_witness :
    ([voiCostRow].all (fun row =>
      !(rowGet row "cost_type" == "MicroarchitecturalPerformanceCost") ||
      (rowGet row "evidence_grade" == "E1")) = true) ∧
    ranking_for_microperf [voiCostRow] (4 / 5) =
      ranking_for_microperf [voiCostRow] (6 / 5) :=
  ⟨by decide, C9_e1_multiplier_invariant [voiCostRow] (4 / 5) (6 / 5) (by decide)⟩

/-! ## Shared list lemmas -/

/-- Filtering away elements the extraction maps to `none` anyway does not
change a `filterMap`. -/
theorem filterMap_filter_of_none {α β : Type} {p : α → Bool} {f : α → Option β}
    (h : ∀ x, p x = false → f x = none) (l : List α) :
    (l.filter p).filterMap f = l.filterMap f := by
  induction l with
  | nil => rfl
  | cons x l ih =>
    cases hp : p x with
    | false => simp [List.filter_cons, hp, List.filterMap_cons, h x hp, ih]
    | true => simp [List.filter_cons, hp, List.filterMap_cons, ih]

/-- Filtering away elements on which the step function is the identity
does not change a `foldl`. -/
theorem foldl_filter_of_fix {α σ : Type} {p : α → Bool} {step : σ → α → σ}
    (h : ∀ s x, p x = false → step s x = s) (l : List α) (s : σ) :
    (l.filter p).foldl step s = l.foldl step s := by
  induction l generalizing s with
  | nil => rfl
  | cons x l ih =>
    cases hp : p x with
    | false => simp [List.filter_cons, hp, List.foldl_cons, h s x hp, ih]
    | true => simp [List.filter_cons, hp, List.foldl_cons, ih]

/-- A row with a blank categorical field never contributes a
microperformance pair. -/
theorem microperfPair?_of_invalid (row : Row) (multiplier : ℚ)
    (h : validCat row = false) : microperfPair? row multiplier = none := by
  rw [validCat, Bool.and_eq_false_iff, Bool.not_eq_false', Bool.not_eq_false',
    beq_iff_eq, beq_iff_eq] at h
  rw [microperfPair?]
  by_cases hct : rowGet row "cost_type" ≠ "MicroarchitecturalPerformanceCost"
  · rw [if_pos hct]
  · rw [if_neg hct]
    push_neg at hct
    have hfam : pytrim (rowGet row "mechanism_family") = "" := by
      rcases h with h | h
      · exact h
      · rw [hct] at h
        exact absurd h (by decide)
    split
    · rfl
    · simp [hfam]

/-! ## Claim C2 (amended theorem) -/

/-- Claim C2 (amended): rows with a blank trimmed `mechanism_family` or
`cost_type` are excluded without error from the family means of the
microperformance aggregator and from the VOI cells — removing them changes
neither artifact.  (They are not, however, fully excluded from objective
scoring, as `C2_counterexample` shows.) -/
theorem C2_blank_fields_excluded (cost_rows : List Row) (multiplier : ℚ)
    (incident_rows : List Row) :
    ranking_for_microperf (cost_rows.filter validCat) multiplier =
      ranking_for_microperf cost_rows multiplier ∧
    generate_voi_rows (cost_rows.filter validCat) incident_rows =
      generate_voi_rows cost_rows incident_rows := by
  constructor
  · rw [ranking_for_microperf, ranking_for_microperf,
      filterMap_filter_of_none
        (fun row hrow => microperfPair?_of_invalid row multiplier hrow)]
  · have hcells : voiCells (cost_rows.filter validCat) = voiCells cost_rows := by
      rw [voiCells, voiCells]
      refine foldl_filter_of_fix (fun acc row hrow => ?_) cost_rows []
      rw [validCat, Bool.and_eq_false_iff, Bool.not_eq_false', Bool.not_eq_false',
        beq_iff_eq, beq_iff_eq] at hrow
      exact if_pos hrow
    simp only [generate_voi_rows, scoredRows, hcells]

/-! ## Claim C4: objective validity conditions -/

/-- The helper `insertGrouped` preserves non-emptiness of every group. -/
theorem insertGrouped_ne_nil {β : Type} (l : List (String × List β)) (k : String)
    (v : β) (h : ∀ g ∈ l, g.2 ≠ []) : ∀ g ∈ insertGrouped l k v, g.2 ≠ [] := by
  induction l with
  | nil =>
    intro g hg
    rw [insertGrouped, List.mem_singleton] at hg
    subst hg
    simp
  | cons a l ih =>
    rcases a with ⟨k', vs⟩
    intro g hg
    rw [insertGrouped] at hg
    by_cases hk : k' = k
    · rw [if_pos hk, List.mem_cons] at hg
      rcases hg with hg | hg
      · subst hg
        simp
      · exact h g (List.mem_cons_of_mem _ hg)
    · rw [if_neg hk, List.mem_cons] at hg
      rcases hg with hg | hg
      · subst hg
        exact h (k', vs) (List.mem_cons_self _ _)
      · exact ih (fun g' hg' => h g' (List.mem_cons_of_mem _ hg')) g hg

/-- Every group produced by `group_by_family` is non-empty. -/
theorem group_by_family_ne_nil (cost_rows : List Row) :
    ∀ g ∈ group_by_family cost_rows, g.2 ≠ [] := by
  rw [group_by_family]
  suffices aux : ∀ (rows : List Row) (acc : List (String × List Row)),
      (∀ g ∈ acc, g.2 ≠ []) →
      ∀ g ∈ rows.foldl (fun acc row =>
        let family := pytrim (rowGet row "mechanism_family")
        if family = "" then acc else insertGrouped acc family row) acc, g.2 ≠ []
    from aux cost_rows [] (by simp)
  intro rows
  induction rows with
  | nil => exact fun acc hacc => hacc
  | cons r rows ih =>
    intro acc hacc
    rw [List.foldl_cons]
    apply ih
    dsimp only
    split
    · exact hacc
    · exact insertGrouped_ne_nil acc _ r hacc

/-- With all groups non-empty, the scored-family map has a key exactly
where the grouping does. -/
theorem lookupA_objectiveFamilyScores (grouped : List (String × List Row))
    (objective : Row) (max_by_type normalized_incident : List (String × ℚ))
    (h : ∀ g ∈ grouped, g.2 ≠ []) (k : String) :
    (lookupA (objectiveFamilyScores grouped objective max_by_type
      normalized_incident) k).isSome = (lookupA grouped k).isSome := by
  induction grouped with
  | nil => rfl
  | cons g gs ih =>
    have hg : g.2.isEmpty = false := by
      rw [List.isEmpty_eq_false]
      exact h g (List.mem_cons_self _ _)
    rw [objectiveFamilyScores, List.filterMap_cons]
    rw [hg]
    show (lookupA ((g.1, _) :: objectiveFamilyScores gs objective max_by_type
      normalized_incident) k).isSome = (lookupA (g :: gs) k).isSome
    rw [lookupA, lookupA]
    by_cases hk : g.1 = k
    · rw [if_pos hk, if_pos hk]
      rfl
    · rw [if_neg hk, if_neg hk]
      exact ih (fun g' hg' => h g' (List.mem_cons_of_mem _ hg'))

/-- With all groups non-empty, the scored-family map has one entry per
group. -/
theorem length_objectiveFamilyScores (grouped : List (String × List Row))
    (objective : Row) (max_by_type normalized_incident : List (String × ℚ))
    (h : ∀ g ∈ grouped, g.2 ≠ []) :
    (objectiveFamilyScores grouped objective max_by_type
      normalized_incident).length = grouped.length := by
  induction grouped with
  | nil => rfl
  | cons g gs ih =>
    have hg : g.2.isEmpty = false := by
      rw [List.isEmpty_eq_false]
      exact h g (List.mem_cons_self _ _)
    rw [objectiveFamilyScores, List.filterMap_cons, hg]
    show ((g.1, _) :: objectiveFamilyScores gs objective max_by_type
      normalized_incident).length = (g :: gs).length
    rw [List.length_cons, List.length_cons,
      ih (fun g' hg' => h g' (List.mem_cons_of_mem _ hg'))]

/-- An objective survives `processObjective` exactly when `validObjective`
accepts it. -/
theorem processObjective_isSome (cost_rows : List Row)
    (max_by_type normalized_incident : List (String × ℚ)) (objective : Row) :
    (processObjective (group_by_family cost_rows) max_by_type
      normalized_incident objective).isSome = validObjective cost_rows objective := by
  rw [processObjective, validObjective]
  by_cases h1 : pytrim (rowGet objective "objective_id") = "" ∨
      pytrim (rowGet objective "objective_label") = "" ∨
      pytrim (rowGet objective "baseline_family") = ""
  · rw [if_pos h1]
    rcases h1 with h | h | h <;> simp [h]
  · rw [if_neg h1]
    push_neg at h1
    obtain ⟨hid, hlabel, hbase⟩ := h1
    cases hw : nonempty objective required_weight_fields with
    | false => simp [hw]
    | true =>
      rw [if_neg (by simp [hw])]
      have hne := group_by_family_ne_nil cost_rows
      have hlook := lookupA_objectiveFamilyScores (group_by_family cost_rows)
        objective max_by_type normalized_incident hne
        (pytrim (rowGet objective "baseline_family"))
      have hlen := length_objectiveFamilyScores (group_by_family cost_rows)
        objective max_by_type normalized_incident hne
      by_cases h3 : lookupA (objectiveFamilyScores (group_by_family cost_rows)
          objective max_by_type normalized_incident)
          (pytrim (rowGet objective "baseline_family")) = none ∨
          (objectiveFamilyScores (group_by_family cost_rows) objective
            max_by_type normalized_incident).length < 2
      · rw [if_pos h3]
        symm
        rcases h3 with h3 | h3
        · rw [h3] at hlook
          simp [hid, hlabel, hbase, hw, ← hlook]
      
        · rw [hlen] at h3
          simp [hid, hlabel, hbase, hw, Nat.not_le.mpr h3]
      · rw [if_neg h3]
        push_neg at h3
        obtain ⟨h3a, h3b⟩ := h3
        rw [hlen] at h3b
        rw [← Option.isSome_iff_ne_none] at h3a
        rw [h3a] at hlook
        simp [hid, hlabel, hbase, hw, ← hlook, h3b]

/-- The fold in `generate_objective_comparisons` counts exactly the
objectives `processObjective` keeps. -/
theorem foldl_objective_count (grouped : List (String × List Row))
    (max_by_type normalized_incident : List (String × ℚ)) (os : List Row)
    (acc : List ObjComparison × ℕ) :
    (os.foldl (fun acc objective =>
      match processObjective grouped max_by_type normalized_incident objective with
      | none => acc
      | some (oid, olabel, baseline, scores) =>
        (acc.1 ++ objectiveOutputRows oid olabel baseline scores, acc.2 + 1))
      acc).2 =
      acc.2 + os.countP (fun o =>
        (processObjective grouped max_by_type normalized_incident o).isSome) := by
  induction os generalizing acc with
  | nil => simp
  | cons o os ih =>
    rw [List.foldl_cons, ih, List.countP_cons]
    cases hp : processObjective grouped max_by_type normalized_incident o with
    | none => simp [hp]
    | some x =>
      rcases x with ⟨oid, olabel, baseline, scores⟩
      simp only [hp, Option.isSome_some, if_pos]
      omega

/-- Claim C4 (amended): an objective is counted toward CQ3 validity iff
its trimmed `objective_id`, `objective_label` and `baseline_family` are
all non-blank, all seven weight fields are non-blank, its baseline family
is among the scored families, and at least two families are scored. -/
theorem C4_objective_validity (cost_rows incident_rows objective_rows : List Row) :
    (generate_objective_comparisons cost_rows incident_rows objective_rows).2.1 =
      objective_rows.countP (validObjective cost_rows) := by
  rw [generate_objective_comparisons]
  dsimp only
  rw [foldl_objective_count]
  rw [Nat.zero_add]
  exact List.countP_congr (fun o _ => by rw [processObjective_isSome])

/-- Claim C4 is false as stated: this objective's baseline family is among
the scored families and two families are scored, yet it is not counted as
valid because its `objective_label` is blank. -/
theorem C4_counterexample :
    (lookupA (familyScoresFor c4CostRows [] c4Objective) "F1").isSome = true ∧
    2 ≤ (familyScoresFor c4CostRows [] c4Objective).length ∧
    (generate_objective_comparisons c4CostRows [] [c4Objective]).2.1 = 0 := by
  refine ⟨by decide, by decide, by decide⟩

/-! ## Claims C5 and C7: VOI structure lemmas -/

/-- The helper `updateCell` preserves non-blankness of all cell keys. -/
theorem updateCell_keys (l : List ((String × String) × CellCounts))
    (key : String × String) (row : Row)
    (h : ∀ cell ∈ l, cell.1.1 ≠ "" ∧ cell.1.2 ≠ "") (h1 : key.1 ≠ "")
    (h2 : key.2 ≠ "") :
    ∀ cell ∈ updateCell l key row, cell.1.1 ≠ "" ∧ cell.1.2 ≠ "" := by
  induction l with
  | nil =>
    intro cell hcell
    rw [updateCell, List.mem_singleton] at hcell
    subst hcell
    exact ⟨h1, h2⟩
  | cons a l ih =>
    rcases a with ⟨k, c⟩
    intro cell hcell
    rw [updateCell] at hcell
    by_cases hk : k = key
    · rw [if_pos hk, List.mem_cons] at hcell
      rcases hcell with hcell | hcell
      · subst hcell
        rw [hk]
        exact ⟨h1, h2⟩
      · exact h cell (List.mem_cons_of_mem _ hcell)
    · rw [if_neg hk, List.mem_cons] at hcell
      rcases hcell with hcell | hcell
      · subst hcell
        exact h (k, c) (List.mem_cons_self _ _)
      · exact ih (fun c' hc' => h c' (List.mem_cons_of_mem _ hc')) cell hcell

/-- Every cell key in `voiCells` has non-blank family and cost type. -/
theorem voiCells_keys_ne (cost_rows : List Row) :
    ∀ cell ∈ voiCells cost_rows, cell.1.1 ≠ "" ∧ cell.1.2 ≠ "" := by
  rw [voiCells]
  suffices aux : ∀ (rows : List Row) (acc : List ((String × String) × CellCounts)),
      (∀ cell ∈ acc, cell.1.1 ≠ "" ∧ cell.1.2 ≠ "") →
      ∀ cell ∈ rows.foldl (fun acc row =>
        let key := (pytrim (rowGet row "mechanism_family"),
                    pytrim (rowGet row "cost_type"))
        if key.1 = "" ∨ key.2 = "" then acc else updateCell acc key row) acc,
        cell.1.1 ≠ "" ∧ cell.1.2 ≠ ""
    from aux cost_rows [] (by simp)
  intro rows
  induction rows with
  | nil => exact fun acc hacc => hacc
  | cons r rows ih =>
    intro acc hacc
    rw [List.foldl_cons]
    apply ih
    dsimp only
    split
    · exact hacc
    · next hkey =>
      push_neg at hkey
      exact updateCell_keys acc _ r hacc hkey.1 hkey.2

/-- Looking up after a `bumpFam` update. -/
theorem lookupA_bumpFam (l : List (String × ℕ)) (f k : String) :
    lookupA (bumpFam l f) k =
      if f = k then some ((lookupA l k).getD 0 + 1) else lookupA l k := by
  induction l with
  | nil =>
    rw [bumpFam]
    by_cases h : f = k
    · simp [lookupA, h]
    · simp [lookupA, h]
  | cons a l ih =>
    rcases a with ⟨g, n⟩
    rw [bumpFam]
    by_cases hgf : g = f
    · rw [if_pos hgf]
      by_cases hgk : g = k
      · have hfk : f = k := hgf.symm.trans hgk
        simp [lookupA, hgk, hfk]
      · have hfk : f ≠ k := fun h => hgk (hgf.trans h)
        simp [lookupA, hgk, hfk]
    · rw [if_neg hgf]
      by_cases hgk : g = k
      · have hfk : f ≠ k := fun h => hgf (hgk.trans h.symm)
        simp [lookupA, hgk, hfk]
      · simp [lookupA, hgk, ih]

/-- The incident-count map realizes a per-family count: for a non-blank
family, the looked-up count is the number of incident rows whose trimmed
`linked_family` equals it. -/
theorem incident_count_lookup (incident_rows : List Row) (fam : String)
    (hfam : fam ≠ "") :
    (lookupA (incident_count_map incident_rows) fam).getD 0 =
      incident_rows.countP (fun row =>
        pytrim (rowGet row "linked_family") == fam) := by
  rw [incident_count_map]
  suffices aux : ∀ (rows : List Row) (acc : List (String × ℕ)),
      (lookupA (rows.foldl (fun acc row =>
        let family := pytrim (rowGet row "linked_family")
        if family = "" then acc else bumpFam acc family) acc) fam).getD 0 =
      (lookupA acc fam).getD 0 +
        rows.countP (fun row => pytrim (rowGet row "linked_family") == fam)
    by simpa [lookupA] using aux incident_rows []
  intro rows
  induction rows with
  | nil => intro acc; simp
  | cons r rows ih =>
    intro acc
    rw [List.foldl_cons, ih, List.countP_cons]
    dsimp only
    by_cases hr : pytrim (rowGet r "linked_family") = ""
    · rw [if_pos hr]
      have hp : (pytrim (rowGet r "linked_family") == fam) = false := by
        rw [hr]
        exact beq_eq_false_iff_ne.mpr (fun h => hfam h.symm)
      rw [hp]
      simp
    · rw [if_neg hr, lookupA_bumpFam]
      by_cases heq : pytrim (rowGet r "linked_family") = fam
      · rw [if_pos heq]
        have hp : (pytrim (rowGet r "linked_family") == fam) = true :=
          beq_iff_eq.mpr heq
        rw [hp, Option.getD_some]
        simp
        omega
      · rw [if_neg heq]
        have hp : (pytrim (rowGet r "linked_family") == fam) = false :=
          beq_eq_false_iff_ne.mpr heq
        rw [hp]
        simp

/-- A member of a list appears in its enumeration from any base index. -/
theorem mem_enumFrom_of_mem {α : Type} (x : α) :
    ∀ (l : List α) (n : ℕ), x ∈ l → ∃ k, (k, x) ∈ List.enumFrom n l := by
  intro l
  induction l with
  | nil => exact fun n h => absurd h (List.not_mem_nil x)
  | cons a l ih =>
    intro n h
    rcases List.mem_cons.mp h with h | h
    · subst h
      exact ⟨n, List.mem_cons_self _ _⟩
    · obtain ⟨k, hk⟩ := ih (n + 1) h
      exact ⟨k, List.mem_cons_of_mem _ hk⟩

/-- Every `by_cell` entry surfaces as a VOI output row carrying its
accumulated counts, the family-granular incident count, and the weighted
score. -/
theorem voiCells_surface (cost_rows incident_rows : List Row)
    (cell : (String × String) × CellCounts) (hcell : cell ∈ voiCells cost_rows) :
    ∃ r ∈ generate_voi_rows cost_rows incident_rows,
      r.mechanism_family = cell.1.1 ∧ r.cost_type = cell.1.2 ∧
      r.e2_rows = cell.2.e2_rows ∧ r.e3_rows = cell.2.e3_rows ∧
      r.transfer_externalized_rows = cell.2.transfer_rows ∧
      r.incident_link_rows =
        (lookupA (incident_count_map incident_rows) cell.1.1).getD 0 ∧
      r.voi_score = 1 * (cell.2.e2_rows : ℚ) + 2 * (cell.2.e3_rows : ℚ) +
        6 / 5 * (cell.2.transfer_rows : ℚ) +
        4 / 5 * (((lookupA (incident_count_map incident_rows) cell.1.1).getD 0 :
          ℕ) : ℚ) := by
  have h1 : (⟨cell.1.1, cell.1.2, cell.2.e2_rows, cell.2.e3_rows,
      cell.2.transfer_rows,
      (lookupA (incident_count_map incident_rows) cell.1.1).getD 0,
      1 * (cell.2.e2_rows : ℚ) + 2 * (cell.2.e3_rows : ℚ) +
        6 / 5 * (cell.2.transfer_rows : ℚ) +
        4 / 5 * (((lookupA (incident_count_map incident_rows) cell.1.1).getD 0 :
          ℕ) : ℚ),
      0⟩ : VoiRow) ∈ scoredRows cost_rows incident_rows := by
    rw [scoredRows]
    exact List.mem_map.mpr ⟨cell, hcell, rfl⟩
  have h2 := (List.perm_insertionSort voiRel
    (scoredRows cost_rows incident_rows)).mem_iff.mpr h1
  obtain ⟨k, hk⟩ := mem_enumFrom_of_mem _ _ 1 h2
  rw [generate_voi_rows]
  exact ⟨_, List.mem_map.mpr ⟨(k, _), hk, rfl⟩, rfl, rfl, rfl, rfl, rfl, rfl, rfl⟩

/-- Claim C5: every cell of the cost dataset yields a VOI output row whose
`voi_score` is `1.0·e2 + 2.0·e3 + 1.2·transfer + 0.8·incidents`, with the
incident count taken family-granularly; and on the spec's one-cost-row /
one-incident-row input the output is exactly one row for
`(F1, MicroarchitecturalPerformanceCost)` with counts `0,0,0,1`, score
`0.80` and rank `1`. -/
theorem C5_voi_score_formula :
    (∀ (cost_rows incident_rows : List Row) (fam ct : String),
      (fam, ct) ∈ (voiCells cost_rows).map Prod.fst →
      (generate_voi_rows cost_rows incident_rows).any (fun r =>
        r.mechanism_family == fam && r.cost_type == ct &&
        r.incident_link_rows == incident_rows.countP (fun row =>
          pytrim (rowGet row "linked_family") == fam) &&
        decide (r.voi_score = (r.e2_rows : ℚ) + 2 * (r.e3_rows : ℚ) +
          6 / 5 * (r.transfer_externalized_rows : ℚ) +
          4 / 5 * (r.incident_link_rows : ℚ))) = true) ∧
    generate_voi_rows [voiCostRow] [voiIncidentRow] =
      [⟨"F1", "MicroarchitecturalPerformanceCost", 0, 0, 0, 1, 4 / 5, 1⟩] := by
  constructor
  · intro c i fam ct hmem
    rw [List.any_eq_true]
    obtain ⟨cell, hcell, hfst⟩ := List.mem_map.mp hmem
    obtain ⟨r, hr, h1, h2, h3, h4, h5, h6, h7⟩ := voiCells_surface c i cell hcell
    have hfam : cell.1.1 = fam := by rw [hfst]
    have hct : cell.1.2 = ct := by rw [hfst]
    have hne := (voiCells_keys_ne c cell hcell).1
    rw [hfam] at hne
    refine ⟨r, hr, ?_⟩
    simp only [Bool.and_eq_true, beq_iff_eq, decide_eq_true_eq]
    refine ⟨⟨⟨?_, ?_⟩, ?_⟩, ?_⟩
    · rw [h1, hfam]
    · rw [h2, hct]
    · rw [h6, hfam, incident_count_lookup i fam hne]
    · rw [h7, h3, h4, h5, h6]
      ring
  · have h1 : voiCells [voiCostRow] =
        [(("F1", "MicroarchitecturalPerformanceCost"), ⟨0, 0, 0⟩)] := by decide
    have h2 : incident_count_map [voiIncidentRow] = [("F1", 1)] := by decide
    rw [generate_voi_rows, scoredRows, h1, h2]
    simp only [List.map_cons, List.map_nil, lookupA]
    norm_num [List.insertionSort, List.orderedInsert, List.enumFrom]

/-- Witness for C5 at the spec's end-to-end input. -/
theorem C5_voi_score_formula_witness :
    (("F1", "MicroarchitecturalPerformanceCost") ∈
      (voiCells [voiCostRow]).map Prod.fst) ∧
    (generate_voi_rows [voiCostRow] [voiIncidentRow]).any (fun r =>
      r.mechanism_family == "F1" &&
      r.cost_type == "MicroarchitecturalPerformanceCost" &&
      r.incident_link_rows == [voiIncidentRow].countP (fun row =>
        pytrim (rowGet row "linked_family") == "F1") &&
      decide (r.voi_score = (r.e2_rows : ℚ) + 2 * (r.e3_rows : ℚ) +
        6 / 5 * (r.transfer_externalized_rows : ℚ) +
        4 / 5 * (r.incident_link_rows : ℚ))) = true :=
  ⟨by decide, C5_voi_score_formula.1 [voiCostRow] [voiIncidentRow] "F1"
    "MicroarchitecturalPerformanceCost" (by decide)⟩

/-- Claim C7: the VOI output is sorted descending by score with ties
broken ascending by `(family, cost_type)`, every score is non-negative,
and the priority ranks over the `N` rows are exactly `1..N`. -/
theorem C7_voi_output_invariants (cost_rows incident_rows : List Row) :
    List.Pairwise (fun a b : VoiRow =>
      b.voi_score < a.voi_score ∨ (a.voi_score = b.voi_score ∧
        (a.mechanism_family < b.mechanism_family ∨
          (a.mechanism_family = b.mechanism_family ∧
            a.cost_type ≤ b.cost_type))))
      (generate_voi_rows cost_rows incident_rows) ∧
    (generate_voi_rows cost_rows incident_rows).all
      (fun r => decide (0 ≤ r.voi_score)) = true ∧
    (generate_voi_rows cost_rows incident_rows).map (fun r => r.priority_rank) =
      List.range' 1 (generate_voi_rows cost_rows incident_rows).length := by
  refine ⟨?_, ?_, ?_⟩
  · have hs : List.Pairwise voiRel
        (List.insertionSort voiRel (scoredRows cost_rows incident_rows)) :=
      List.sorted_insertionSort voiRel (scoredRows cost_rows incident_rows)
    rw [generate_voi_rows, List.pairwise_map]
    have hs2 : List.Pairwise (fun p q : ℕ × VoiRow => voiRel p.2 q.2)
        (List.enumFrom 1
          (List.insertionSort voiRel (scoredRows cost_rows incident_rows))) := by
      rw [← List.enumFrom_map_snd 1
        (List.insertionSort voiRel (scoredRows cost_rows incident_rows)),
        List.pairwise_map] at hs
      exact hs
    refine hs2.imp ?_
    intro p q h
    rw [voiRel, voiKey, voiKey, Prod.Lex.le_iff] at h
    rcases h with h | ⟨hsc, hlex⟩
    · exact Or.inl (neg_lt_neg_iff.mp h)
    · refine Or.inr ⟨neg_inj.mp hsc, ?_⟩
      rw [Prod.Lex.le_iff] at hlex
      exact hlex
  · rw [List.all_eq_true]
    intro r hr
    rw [decide_eq_true_eq]
    rw [generate_voi_rows] at hr
    obtain ⟨p, hp, hpr⟩ := List.mem_map.mp hr
    have hsnd : p.2 ∈
        List.insertionSort voiRel (scoredRows cost_rows incident_rows) := by
      have hmm := List.mem_map_of_mem Prod.snd hp
      rwa [List.enumFrom_map_snd] at hmm
    have hmem : p.2 ∈ scoredRows cost_rows incident_rows :=
      (List.perm_insertionSort voiRel _).mem_iff.mp hsnd
    rw [scoredRows] at hmem
    obtain ⟨cell, hcell, hceq⟩ := List.mem_map.mp hmem
    have hscore : r.voi_score = p.2.voi_score := by rw [← hpr]
    have hval : p.2.voi_score = 1 * (cell.2.e2_rows : ℚ) +
        2 * (cell.2.e3_rows : ℚ) + 6 / 5 * (cell.2.transfer_rows : ℚ) +
        4 / 5 * (((lookupA (incident_count_map incident_rows) cell.1.1).getD 0 :
          ℕ) : ℚ) := by
      rw [← hceq]
    rw [hscore, hval]
    positivity
  · rw [generate_voi_rows, List.map_map]
    have hcomp : ((fun r : VoiRow => r.priority_rank) ∘ (fun p : ℕ × VoiRow =>
        { p.2 with priority_rank := p.1 })) = Prod.fst := funext fun p => rfl
    rw [hcomp, List.enumFrom_map_fst, List.length_map, List.enumFrom_length]

/-- Witness for C7 at a concrete input. -/
theorem C7_voi_output_invariants_witness :
    (generate_voi_rows [voiCostRow] [voiIncidentRow]).all
      (fun r => decide (0 ≤ r.voi_score)) = true ∧
    (generate_voi_rows [voiCostRow] [voiIncidentRow]).map
      (fun r => r.priority_rank) =
      List.range' 1 (generate_voi_rows [voiCostRow] [voiIncidentRow]).length :=
  ⟨(C7_voi_output_invariants [voiCostRow] [voiIncidentRow]).2.1,
   (C7_voi_output_invariants [voiCostRow] [voiIncidentRow]).2.2⟩
